import Mathlib

/-!
# Verification of the Tinxy cloud integration core

Shallow embedding of the device-normalization and state-synchronization
engine of the `tinxy` Home Assistant custom component
(`custom_components/tinxy/tinxycloud.py` and
`custom_components/tinxy/coordinator.py`), together with proofs of the
specification claims about it.

Python dictionaries with a fixed field schema are embedded as Lean
structures with `Option` fields for the optional keys; dictionaries used
as string-keyed maps are embedded as association lists with
overwrite-on-insert (`StrMap`); exceptions are embedded as `Except` /
explicit error results; logging calls are collected into a list of
emitted warning messages.
-/

namespace Tinxy

/-- Python exception values that cross the boundaries relevant to the
claims.  `tinxyAuth` embeds `TinxyAuthenticationException`, `tinxy`
embeds `TinxyException` (its superclass), `timeout` embeds
`asyncio.TimeoutError` raised by `async_timeout.timeout`, and `other`
embeds any other Python exception (e.g. `IndexError`). -/
inductive PyExc where
  | tinxyAuth (msg : String)
  | tinxy (msg : String)
  | timeout
  | other (msg : String)
deriving DecidableEq

/-- Python `isinstance(e, TinxyException)`: `TinxyAuthenticationException`
is a subclass of `TinxyException`. -/
def PyExc.isTinxy : PyExc → Bool
  | .tinxyAuth _ => true
  | .tinxy _ => true
  | _ => false

/-- Python `isinstance(e, TinxyAuthenticationException)`. -/
def PyExc.isTinxyAuth : PyExc → Bool
  | .tinxyAuth _ => true
  | _ => false

/-- Message text of an exception (its `str()` form, as interpolated into
the coordinator's error strings). -/
def PyExc.msg : PyExc → String
  | .tinxyAuth m => m
  | .tinxy m => m
  | .timeout => "TimeoutError"
  | .other m => m

/-- Embeds the dataclass `TinxyHostConfiguration` (fields `api_token : str`,
`api_url : str | None`). -/
structure TinxyHostConfiguration where
  api_token : String
  api_url : Option String
deriving DecidableEq

/-- Python truthiness of an optional string: `None` and `""` are falsy. -/
def optStrTruthy (s : Option String) : Bool :=
  s.getD "" ≠ ""

/-- Embeds constructing a `TinxyHostConfiguration`, whose `__post_init__`
validates the fields: `if not self.api_token: raise
TinxyAuthenticationException("No API token was provided.")` and then
`if not self.api_url: raise TinxyException("No API URL was provided.")`.
Construction is pure: no network request is involved. -/
def mkTinxyHostConfiguration (api_token : String) (api_url : Option String) :
    Except PyExc TinxyHostConfiguration :=
  if api_token = "" then
    .error (.tinxyAuth "No API token was provided.")
  else if ¬ optStrTruthy api_url then
    .error (.tinxy "No API URL was provided.")
  else
    .ok ⟨api_token, api_url⟩

/-! ## Class-level constants of `TinxyCloud` -/

def DOMAIN : String := "tinxy"

def DISABLED_DEVICES : List String := ["EVA_HUB"]

def ENABLED_DEVICES : List String :=
  ["Dimmable Light", "EM_DOOR_LOCK", "EVA_BULB", "EVA_BULB_WW", "Fan",
   "WIFI_2SWITCH_V1", "WIFI_2SWITCH_V3", "WIFI_3SWITCH_1FAN", "WIFI_3SWITCH_1FAN_V3",
   "WIFI_4DIMMER", "WIFI_4SWITCH", "WIFI_4SWITCH_V2", "WIFI_4SWITCH_V3",
   "WIFI_6SWITCH_V1", "WIFI_6SWITCH_V3", "WIFI_BULB_WHITE_V1", "WIFI_SWITCH",
   "WIFI_SWITCH_1FAN_V1", "WIFI_SWITCH_V2", "WIFI_SWITCH_V3", "WIRED_DOOR_LOCK",
   "WIRED_DOOR_LOCK_V2", "WIRED_DOOR_LOCK_V3"]

def GTYPE_LIGHT : List String := ["action.devices.types.LIGHT"]
def GTYPE_SWITCH : List String := ["action.devices.types.SWITCH"]
def GTYPE_LOCK : List String := ["action.devices.types.LOCK"]

def TYPE_ID_LOCK : List String := ["WIRED_DOOR_LOCK_V3"]
def TYPE_ID_EVA : List String := ["EVA_BULB_WW", "EVA_BULB"]
def TYPE_ID_FAN : List String :=
  ["WIFI_3SWITCH_1FAN", "Fan", "WIFI_SWITCH_1FAN_V1", "WIFI_3SWITCH_1FAN_V3"]

/-! ## Raw inventory records (vendor wire shape) -/

/-- Embeds the nested `typeId` object of a hardware-unit record. -/
structure TypeId where
  name : String
  long_name : String
  gtype : String
  traits : List String
deriving DecidableEq

/-- Embeds one raw hardware-unit record of the inventory endpoint.
The Python `_id` key is embedded as field `uid`. -/
structure RawDevice where
  uid : String
  name : String
  typeId : TypeId
  devices : List String
  deviceTypes : List String
  firmwareVersion : String
deriving DecidableEq

/-- Embeds the result of `TinxyCloud.get_device_info` (device-registry
info dictionary). -/
structure DeviceInfo where
  identifiers : String × String
  name : String
  manufacturer : String
  model : String
  sw_version : String
deriving DecidableEq

/-- Embeds the logical-device dictionary built by
`TinxyCloud._create_device_dict`. -/
structure DeviceDict where
  id : String
  device_id : String
  name : String
  relay_no : Nat
  gtype : String
  traits : List String
  device_type : String
  user_device_type : String
  device_desc : String
  tinxy_type : String
  icon : String
  device : DeviceInfo
deriving DecidableEq

/-- Embeds `TinxyCloud.get_device_info`. -/
def get_device_info (data : RawDevice) : DeviceInfo :=
  { identifiers := (DOMAIN, data.uid)
    name := data.name
    manufacturer := "Tinxy.in"
    model := data.typeId.long_name
    sw_version := data.firmwareVersion }

/-- The `light_types` set local to `TinxyCloud._get_device_type`. -/
def light_types : List String := ["Tubelight", "LED Bulb", "EVA_BULB_WW"]

/-- Embeds `TinxyCloud._get_device_type tinxy_type item_id`. -/
def get_device_type (tinxy_type : String) (item_id : Nat) : String :=
  if tinxy_type ∈ TYPE_ID_FAN ∧ item_id = 0 then "Fan"
  else if tinxy_type ∈ light_types then "Light"
  else if tinxy_type ∈ TYPE_ID_LOCK then "Lock"
  else "Switch"

/-- The `icon_mapping` dictionary local to `TinxyCloud._generate_icon`. -/
def icon_mapping : List (String × String) :=
  [("Heater", "mdi:radiator"),
   ("Tubelight", "mdi:lightbulb-fluorescent-tube"),
   ("LED Bulb", "mdi:lightbulb"),
   ("Dimmable Light", "mdi:lightbulb"),
   ("LED Dimmable Bulb", "mdi:lightbulb"),
   ("Music System", "mdi:music"),
   ("Fan", "mdi:fan"),
   ("Socket", "mdi:power-socket-eu"),
   ("TV", "mdi:television"),
   ("Lock", "mdi:lock")]

/-- Embeds `TinxyCloud._generate_icon`. -/
def generate_icon (device_type : String) : String :=
  if device_type ∈ TYPE_ID_EVA then "mdi:lightbulb"
  else (icon_mapping.lookup device_type).getD "mdi:toggle-switch"

/-- Python `user_device_type or device_type` (`or` on strings: an empty
or absent override falls back to `device_type`). -/
def overrideOr (user_device_type : Option String) (device_type : String) : String :=
  match user_device_type with
  | some u => if u = "" then device_type else u
  | none => device_type

/-- Embeds `TinxyCloud._create_device_dict data device_type relay_no
node_name user_device_type`.  `if node_name:` is Python truthiness:
a `None` or empty node name leaves the unit name unchanged. -/
def create_device_dict (data : RawDevice) (device_type : String) (relay_no : Nat)
    (node_name : Option String) (user_device_type : Option String) : DeviceDict :=
  let device_name :=
    if optStrTruthy node_name then data.name ++ " " ++ node_name.getD ""
    else data.name
  { id := data.uid ++ "-" ++ Nat.repr relay_no
    device_id := data.uid
    name := device_name
    relay_no := relay_no
    gtype := data.typeId.gtype
    traits := data.typeId.traits
    device_type := device_type
    user_device_type := overrideOr user_device_type device_type
    device_desc := data.typeId.long_name
    tinxy_type := data.typeId.name
    icon := generate_icon (overrideOr user_device_type device_type)
    device := get_device_info data }

/-- The multi-node loop of `TinxyCloud.parse_device`: `for item_id,
node_name in enumerate(data["devices"]): ... data["deviceTypes"][item_id]`.
Indexing `deviceTypes` out of range raises an `IndexError`, embedded as
`Except.error`.  `i` is the index of the first element of `nodes` within
the full slot list. -/
def parse_multi (data : RawDevice) (t : String) : Nat → List String →
    Except PyExc (List DeviceDict)
  | _, [] => .ok []
  | i, node :: rest =>
    match data.deviceTypes[i]? with
    | none => .error (.other "IndexError: list index out of range")
    | some udt =>
      match parse_multi data t (i + 1) rest with
      | .error e => .error e
      | .ok ds =>
          .ok (create_device_dict data (get_device_type t i) (i + 1)
                (some node) (some udt) :: ds)

/-- Embeds `TinxyCloud.parse_device`.  The returned pair is the device
list together with the list of warning messages logged during the call;
a raised exception is an `Except.error`. -/
def parse_device (data : RawDevice) :
    Except PyExc (List DeviceDict × List String) :=
  let type_id_name := data.typeId.name
  if data.devices = [] then
    if type_id_name ∈ ENABLED_DEVICES then
      let device_type :=
        if type_id_name ∈ TYPE_ID_EVA then "Light"
        else get_device_type type_id_name 0
      .ok ([create_device_dict data device_type 1 none none], [])
    else if type_id_name ∈ DISABLED_DEVICES then
      .ok ([], [])
    else
      .ok ([], ["Unknown device " ++ type_id_name ++ ", please create GitHub issue."])
  else if type_id_name ∈ ENABLED_DEVICES then
    match parse_multi data type_id_name 0 data.devices with
    | .error e => .error e
    | .ok ds => .ok (ds, [])
  else if type_id_name ∈ DISABLED_DEVICES then
    .ok ([], [])
  else
    .ok ([], ["Unknown multi-node device: " ++ type_id_name])

/-! ## String-keyed maps (Python dictionaries used as maps) -/

/-- A Python dictionary used as a string-keyed map: an association list
with unique keys, looked up with `List.lookup`. -/
abbrev StrMap (α : Type) := List (String × α)

/-- Python dictionary assignment `m[k] = v`: overwrite the (unique)
existing binding in place when the key is present, else append. -/
def StrMap.insert : StrMap α → String → α → StrMap α
  | [], k, v => [(k, v)]
  | p :: rest, k, v =>
    if p.1 = k then (k, v) :: rest else p :: StrMap.insert rest k v

/-! ## Raw status records and status extraction -/

/-- Embeds the nested `state` object of a status item: the five dynamic
fields recognised by `_extract_device_state`, each optional (the Python
code probes each with `in`). -/
structure RawState where
  state : Option String
  status : Option Int
  brightness : Option Int
  door : Option String
  colorTemperatureInKelvin : Option Int
deriving DecidableEq

/-- The empty raw-state dictionary (`item.get("state", {})`). -/
def RawState.empty : RawState := ⟨none, none, none, none, none⟩

/-- Embeds one element of a list-shaped `state` payload: `number`
(optional relay number) and a nested `state` object (optional). -/
structure StatusItem where
  number : Option Int
  state : Option RawState
deriving DecidableEq

/-- The `state` payload of a status record: either a single flat state
object or a list of per-relay items (`isinstance(status["state"], list)`). -/
inductive StatePayload where
  | single (s : RawState)
  | multi (items : List StatusItem)
deriving DecidableEq

/-- Embeds one raw record of the `v2/devices_state` endpoint: `_id`
(embedded as `uid`) plus an optional `state` payload. -/
structure StatusRecord where
  uid : String
  state : Option StatePayload
deriving DecidableEq

/-- The per-relay status dictionary produced by `get_all_status`: the
five extracted dynamic fields, plus the raw item retained under the
`item` key when the item carried no `number`. -/
structure SingleDevice where
  state : Option Bool
  status : Option Int
  brightness : Option Int
  door : Option String
  colorTemperatureInKelvin : Option Int
  item : Option StatusItem
deriving DecidableEq

/-- Embeds `TinxyCloud.state_to_val`. -/
def state_to_val (state : String) : Bool :=
  state == "ON"

/-- Embeds `TinxyCloud._extract_device_state`: copy exactly the fields
present in the raw state, normalising the on/off string through
`state_to_val`; nothing is defaulted. -/
def extract_device_state (state_data : RawState) : SingleDevice :=
  { state := state_data.state.map state_to_val
    status := state_data.status
    brightness := state_data.brightness
    door := state_data.door
    colorTemperatureInKelvin := state_data.colorTemperatureInKelvin
    item := none }

/-- One iteration of the inner loop of `get_all_status` over a
list-shaped payload: key `f"{uid}-{item.get('number', 1)}"`, extraction
of `item.get("state", {})`, and retention of the raw item when `number`
is absent. -/
def statusOfItem (uid : String) (item : StatusItem) : String × SingleDevice :=
  let device_id := uid ++ "-" ++ (item.number.getD 1).repr
  let single_device := extract_device_state (item.state.getD RawState.empty)
  let single_device :=
    if item.number = none then { single_device with item := some item }
    else single_device
  (device_id, single_device)

/-- One iteration of the outer loop of `get_all_status` over one status
record: skip it if it has no `state` key, iterate over a list-shaped
payload, or insert the single entry of an object-shaped payload. -/
def status_step (device_status : StrMap SingleDevice) (status : StatusRecord) :
    StrMap SingleDevice :=
  match status.state with
  | none => device_status
  | some (.multi items) =>
      items.foldl
        (fun acc item =>
          let p := statusOfItem status.uid item
          acc.insert p.1 p.2)
        device_status
  | some (.single s) =>
      device_status.insert (status.uid ++ "-1") (extract_device_state s)

/-- Embeds the pure part of `TinxyCloud.get_all_status`: folds the raw
status feed into the `device_status` dictionary. -/
def get_all_status (status_data : List StatusRecord) : StrMap SingleDevice :=
  status_data.foldl status_step []

/-! ## Transport, sync, and registry views -/

/-- Embeds `TinxyCloud.tinxy_request` applied to the outcome of the
underlying HTTP call: a successful call returns the parsed body, and any
exception raised inside the `try` block (connection error, non-2xx from
`raise_for_status` — including a credentials rejection — or a body-parse
failure, described by the `String`) is caught by the blanket
`except Exception` and re-raised as a plain `TinxyException`. -/
def tinxy_request (method : String) (transport : Except String α) :
    Except PyExc α :=
  match transport with
  | .ok v => .ok v
  | .error e => .error (.tinxy ("API [" ++ method ++ "] call failed: " ++ e))

/-- The parsing loop of `sync_devices`: `device_list.extend(
parse_device(item))` for each inventory item; an exception raised by
`parse_device` propagates. -/
def parse_all : List RawDevice → Except PyExc (List DeviceDict)
  | [] => .ok []
  | d :: rest =>
    match parse_device d with
    | .error e => .error e
    | .ok (ds, _) =>
      match parse_all rest with
      | .error e => .error e
      | .ok more => .ok (ds ++ more)

/-- Embeds `TinxyCloud.sync_devices` as a state transformer on the
stored device list `self.devices`.  `fetch` is the outcome of
`tinxy_request("v2/devices/")`; the returned pair is (raised exception
if any, stored device list after the call).  `self.devices` is assigned
only after the whole loop has finished, so any raised exception leaves
the previous list in place. -/
def sync_devices (fetch : Except PyExc (List RawDevice))
    (old : List DeviceDict) : Option PyExc × List DeviceDict :=
  match fetch with
  | .error e => (some e, old)
  | .ok result =>
    match parse_all result with
    | .error e => (some e, old)
    | .ok device_list => (none, device_list)

/-- Embeds `TinxyCloud.list_switches`. -/
def list_switches (devices : List DeviceDict) : List DeviceDict :=
  devices.filter (fun device => device.device_type == "Switch")

/-- Embeds `TinxyCloud.list_lights`. -/
def list_lights (devices : List DeviceDict) : List DeviceDict :=
  devices.filter (fun device => device.device_type == "Light")

/-- Embeds `TinxyCloud.list_all_devices`. -/
def list_all_devices (devices : List DeviceDict) : List DeviceDict :=
  devices

/-- Embeds `TinxyCloud.list_fans`. -/
def list_fans (devices : List DeviceDict) : List DeviceDict :=
  devices.filter (fun device => device.device_type == "Fan")

/-- Embeds `TinxyCloud.list_locks`: note the filter is on the vendor
`gtype` field, not on the derived `device_type`. -/
def list_locks (devices : List DeviceDict) : List DeviceDict :=
  devices.filter (fun device => device.gtype ∈ GTYPE_LOCK)

/-! ## Coordinator (`TinxyUpdateCoordinator._async_update_data`) -/

/-- A merged device view: the static device dictionary together with the
dynamic status fields, i.e. `{**device, **status_result[device_id]}`.
The static schema (`id`, `device_id`, `name`, `relay_no`, `gtype`,
`traits`, `device_type`, `user_device_type`, `device_desc`,
`tinxy_type`, `icon`, `device`) and the dynamic schema (`state`,
`status`, `brightness`, `door`, `colorTemperatureInKelvin`, `item`) are
disjoint, so the dictionary union keeps every static field and every
dynamic field, the dynamic side trivially taking precedence. -/
structure MergedDevice where
  static : DeviceDict
  dyn : SingleDevice
deriving DecidableEq

/-- Outcome of `_async_update_data`, after the coordinator's
`try/except` ladder: success with the merged mapping,
`ConfigEntryAuthFailed`, or `UpdateFailed` with the communication or the
unexpected message. -/
inductive UpdateOutcome where
  | ok (data : StrMap MergedDevice)
  | configEntryAuthFailed
  | updateFailedComm (msg : String)
  | updateFailedUnexpected (msg : String)
deriving DecidableEq

/-- Whether an outcome is the communication-failure form of
`UpdateFailed` (the "Error communicating with API" branch). -/
def UpdateOutcome.isComm : UpdateOutcome → Bool
  | .updateFailedComm _ => true
  | _ => false

/-- One iteration of the merge loop of `_async_update_data`: if the
device's `id` occurs in `status_result`, store `{**device, **status}`
under that id; a device without a status entry is skipped (only a
warning is logged). -/
def merge_step (status_result : StrMap SingleDevice)
    (status_by_id : StrMap MergedDevice) (device : DeviceDict) : StrMap MergedDevice :=
  match status_result.lookup device.id with
  | some s => status_by_id.insert device.id ⟨device, s⟩
  | none => status_by_id

/-- The merge loop of `_async_update_data` over all known devices,
starting from the empty `status_by_id` dictionary. -/
def merge_status (all_devices : List DeviceDict)
    (status_result : StrMap SingleDevice) : StrMap MergedDevice :=
  all_devices.foldl (merge_step status_result) []

/-- Embeds `TinxyUpdateCoordinator._async_update_data`.  `fetch` is the
outcome of `await self.api_client.get_all_status()` inside the
`async_timeout.timeout(10)` block; `.error .timeout` is the expiry of
that time budget.  The `except` ladder tries
`TinxyAuthenticationException` first, then `TinxyException`, then
`Exception`. -/
def async_update_data (all_devices : List DeviceDict)
    (fetch : Except PyExc (StrMap SingleDevice)) : UpdateOutcome :=
  match fetch with
  | .ok status_result => .ok (merge_status all_devices status_result)
  | .error e =>
    if e.isTinxyAuth then .configEntryAuthFailed
    else if e.isTinxy then
      .updateFailedComm ("Error communicating with API: " ++ e.msg)
    else
      .updateFailedUnexpected ("Unexpected error: " ++ e.msg)

/-! ## Specification-side definitions (for refinement statements) -/

/-- The entry list contributed by one status record, written following
the spec's description of the Status Extractor: a record with no
dynamic-state payload contributes nothing; a single-object payload
contributes one entry keyed `unit_id + "-1"`; a list payload contributes
one entry per item keyed by the item's relay number (default 1). -/
def record_entries_spec (r : StatusRecord) : List (String × SingleDevice) :=
  match r.state with
  | none => []
  | some (.single s) => [(r.uid ++ "-1", extract_device_state s)]
  | some (.multi items) => items.map (statusOfItem r.uid)

/-- The whole extraction, written following the spec: collect every
record's entries and load them into a mapping (later duplicates
overwriting earlier ones). -/
def extract_all_spec (feed : List StatusRecord) : StrMap SingleDevice :=
  (feed.map record_entries_spec).flatten.foldl
    (fun acc p => acc.insert p.1 p.2) []

/-! ## Concrete fixtures (scenario inputs from the spec) -/

/-- Scenario A hardware unit: `WIFI_4SWITCH` with four slots. -/
def unitA : RawDevice :=
  { uid := "U1", name := "Unit A"
    typeId := { name := "WIFI_4SWITCH", long_name := "4 Switch"
                gtype := "action.devices.types.SWITCH", traits := [] }
    devices := ["Kitchen", "Hall", "Bed", "Bath"]
    deviceTypes := ["Switch", "Switch", "Switch", "Switch"]
    firmwareVersion := "1.0" }

/-- Scenario B hardware unit: `WIFI_3SWITCH_1FAN` with per-slot override
list `["Switch", "Switch", "Fan"]`. -/
def unitB : RawDevice :=
  { uid := "U2", name := "Unit B"
    typeId := { name := "WIFI_3SWITCH_1FAN", long_name := "3 Switch 1 Fan"
                gtype := "action.devices.types.SWITCH", traits := [] }
    devices := ["A", "B", "C"]
    deviceTypes := ["Switch", "Switch", "Fan"]
    firmwareVersion := "1.0" }

/-- A multi-slot unit whose type is in the eva-bulb special set. -/
def unitE : RawDevice :=
  { uid := "E1", name := "Eva"
    typeId := { name := "EVA_BULB", long_name := "Eva Bulb"
                gtype := "action.devices.types.LIGHT", traits := [] }
    devices := ["A", "B"]
    deviceTypes := ["Light", "Light"]
    firmwareVersion := "1.0" }

/-- A hardware unit of the explicitly disabled type `EVA_HUB`. -/
def unitHub : RawDevice :=
  { uid := "H1", name := "Hub"
    typeId := { name := "EVA_HUB", long_name := "Eva Hub"
                gtype := "action.devices.types.SWITCH", traits := [] }
    devices := []
    deviceTypes := []
    firmwareVersion := "1.0" }

/-- A hardware unit of a type that is neither enabled nor disabled. -/
def unitMystery : RawDevice :=
  { uid := "M1", name := "Mystery"
    typeId := { name := "WIFI_TOASTER", long_name := "Toaster"
                gtype := "action.devices.types.SWITCH", traits := [] }
    devices := []
    deviceTypes := []
    firmwareVersion := "1.0" }

/-- Scenario C status feed: one record for `U1` with a list payload
holding relay number 2, state `"ON"`, status 1, brightness 66. -/
def feedC : List StatusRecord :=
  [{ uid := "U1"
     state := some (.multi
       [{ number := some 2
          state := some { state := some "ON", status := some 1, brightness := some 66
                          door := none, colorTemperatureInKelvin := none } }]) }]

/-- A status feed whose single list item carries no relay number. -/
def feedNoNumber : List StatusRecord :=
  [{ uid := "U9"
     state := some (.multi
       [{ number := none
          state := some { state := some "ON", status := none, brightness := none
                          door := none, colorTemperatureInKelvin := none } }]) }]

/-- A concrete logical device: capability class `Switch`, vendor `gtype`
in the lock set. -/
def devSwitchLockG : DeviceDict :=
  { id := "U1-1", device_id := "U1", name := "A", relay_no := 1
    gtype := "action.devices.types.LOCK", traits := []
    device_type := "Switch", user_device_type := "Switch"
    device_desc := "d", tinxy_type := "WIFI_SWITCH", icon := "mdi:toggle-switch"
    device := { identifiers := ("tinxy", "U1"), name := "A", manufacturer := "Tinxy.in"
                model := "d", sw_version := "1.0" } }

/-- A concrete logical device: capability class `Lock`, vendor `gtype`
not in the lock set. -/
def devLockSwitchG : DeviceDict :=
  { devSwitchLockG with
    id := "U1-2", relay_no := 2
    gtype := "action.devices.types.SWITCH"
    device_type := "Lock", user_device_type := "Lock"
    tinxy_type := "WIRED_DOOR_LOCK_V3", icon := "mdi:lock" }

/-- A status mapping holding an entry for `devSwitchLockG` only. -/
def statusOne : StrMap SingleDevice :=
  [("U1-1", { state := some true, status := some 1, brightness := none
              door := none, colorTemperatureInKelvin := none, item := none })]

/-- Decode a list of decimal digit characters back to a natural number
(left inverse of `Nat.toDigits 10`, used to prove `Nat.repr` injective). -/
def decodeDigits (l : List Char) : Nat :=
  l.foldl (fun a c => 10 * a + (c.toNat - 48)) 0

/-! ## Lookup lemmas for `StrMap` -/

theorem lookup_insert_self (m : StrMap α) (k : String) (v : α) :
    (m.insert k v).lookup k = some v := by
  induction m with
  | nil => simp [StrMap.insert, List.lookup]
  | cons p rest ih =>
    obtain ⟨a, b⟩ := p
    by_cases hp : a = k
    · subst hp
      simp [StrMap.insert, List.lookup]
    · have hbeq : (k == a) = false := beq_eq_false_iff_ne.mpr (Ne.symm hp)
      simp [StrMap.insert, hp, List.lookup, hbeq, ih]

theorem lookup_insert_ne (m : StrMap α) (k k' : String) (v : α) (h : k' ≠ k) :
    (m.insert k v).lookup k' = m.lookup k' := by
  induction m with
  | nil =>
    have hbeq : (k' == k) = false := beq_eq_false_iff_ne.mpr h
    simp [StrMap.insert, List.lookup, hbeq]
  | cons p rest ih =>
    obtain ⟨a, b⟩ := p
    by_cases hp : a = k
    · subst hp
      have hbeq : (k' == a) = false := beq_eq_false_iff_ne.mpr h
      simp [StrMap.insert, List.lookup, hbeq]
    · cases hka : (k' == a) <;>
        simp [StrMap.insert, hp, List.lookup, hka, ih]

/-! ## Injectivity of `Nat.repr`

Logical-device keys are `f"{unit_id}-{relay_no}"`; distinctness of keys
for distinct relay numbers reduces to injectivity of the decimal
rendering of `Nat`, proved here via the decoding function
`decodeDigits`. -/

theorem decodeDigits_append (l1 l2 : List Char) :
    decodeDigits (l1 ++ l2) =
      l2.foldl (fun a c => 10 * a + (c.toNat - 48)) (decodeDigits l1) := by
  simp [decodeDigits, List.foldl_append]

theorem digitChar_decode {m : Nat} (h : m < 10) :
    (Nat.digitChar m).toNat - 48 = m := by
  have key : ∀ m : Fin 10, (Nat.digitChar m.val).toNat - 48 = m.val := by decide
  exact key ⟨m, h⟩

theorem toDigitsCore_append (f n : Nat) (ds : List Char) :
    Nat.toDigitsCore 10 f n ds = Nat.toDigitsCore 10 f n [] ++ ds := by
  induction f generalizing n ds with
  | zero => simp [Nat.toDigitsCore]
  | succ f ih =>
    simp only [Nat.toDigitsCore]
    by_cases h : n / 10 = 0
    · simp [h]
    · simp only [if_neg h]
      rw [ih (n / 10) (Nat.digitChar (n % 10) :: ds),
        ih (n / 10) [Nat.digitChar (n % 10)], List.append_assoc]
      rfl

theorem decode_toDigitsCore (f : Nat) :
    ∀ n : Nat, n < f → decodeDigits (Nat.toDigitsCore 10 f n []) = n := by
  induction f with
  | zero => intro n h; omega
  | succ f ih =>
    intro n h
    simp only [Nat.toDigitsCore]
    by_cases h0 : n / 10 = 0
    · have hn : n < 10 := by omega
      simp only [if_pos h0]
      have : decodeDigits [Nat.digitChar (n % 10)] = (Nat.digitChar (n % 10)).toNat - 48 := by
        simp [decodeDigits]
      rw [this, digitChar_decode (Nat.mod_lt n (by norm_num)), Nat.mod_eq_of_lt hn]
    · have hpos : 0 < n := by
        by_contra hc
        have : n = 0 := by omega
        simp [this] at h0
      have hdiv : n / 10 < f := by
        have h1 : n / 10 < n := Nat.div_lt_self hpos (by norm_num)
        omega
      simp only [if_neg h0]
      rw [toDigitsCore_append, decodeDigits_append, ih (n / 10) hdiv]
      simp only [List.foldl_cons, List.foldl_nil]
      rw [digitChar_decode (Nat.mod_lt n (by norm_num))]
      omega

theorem natRepr_injective : Function.Injective Nat.repr := by
  intro m n h
  have hdata : (Nat.toDigits 10 m) = (Nat.toDigits 10 n) := by
    have := congrArg String.data h
    simpa [Nat.repr, List.asString] using this
  have hm := decode_toDigitsCore (m + 1) m (Nat.lt_succ_self m)
  have hn := decode_toDigitsCore (n + 1) n (Nat.lt_succ_self n)
  simp only [Nat.toDigits] at hdata
  rw [hdata] at hm
  omega

/-- Distinctness of composite keys `prefix ++ Nat.repr n`. -/
theorem key_inj (pre : String) {i j : Nat}
    (h : pre ++ Nat.repr i = pre ++ Nat.repr j) : i = j := by
  apply natRepr_injective
  have hdata := congrArg String.data h
  simp only [String.data_append] at hdata
  have := List.append_cancel_left hdata
  exact String.ext this

/-! ## Lemmas about the coordinator merge loop -/

theorem merge_fold_lookup_of_no_id (status : StrMap SingleDevice) :
    ∀ (devices : List DeviceDict) (acc : StrMap MergedDevice) (k : String),
      (∀ d ∈ devices, d.id ≠ k) →
      (devices.foldl (merge_step status) acc).lookup k = acc.lookup k := by
  intro devices
  induction devices with
  | nil => intro acc k _; rfl
  | cons d rest ih =>
    intro acc k h
    have hd : d.id ≠ k := h d (List.mem_cons_self d rest)
    have hrest : ∀ d' ∈ rest, d'.id ≠ k := fun d' hm => h d' (List.mem_cons_of_mem d hm)
    rw [List.foldl_cons, ih _ k hrest]
    unfold merge_step
    cases status.lookup d.id with
    | none => rfl
    | some s => exact lookup_insert_ne acc d.id k _ (Ne.symm hd)

theorem merge_fold_lookup_of_no_status (status : StrMap SingleDevice) (k : String)
    (hk : status.lookup k = none) :
    ∀ (devices : List DeviceDict) (acc : StrMap MergedDevice),
      (devices.foldl (merge_step status) acc).lookup k = acc.lookup k := by
  intro devices
  induction devices with
  | nil => intro acc; rfl
  | cons d rest ih =>
    intro acc
    rw [List.foldl_cons, ih]
    unfold merge_step
    by_cases hid : d.id = k
    · rw [hid, hk]
    · cases status.lookup d.id with
      | none => rfl
      | some s => exact lookup_insert_ne acc d.id k _ (Ne.symm hid)

theorem merge_fold_lookup_of_hit (status : StrMap SingleDevice) :
    ∀ (devices : List DeviceDict) (acc : StrMap MergedDevice) (d : DeviceDict)
      (s : SingleDevice),
      d ∈ devices → (devices.map (fun x => x.id)).Nodup →
      status.lookup d.id = some s →
      (devices.foldl (merge_step status) acc).lookup d.id = some ⟨d, s⟩ := by
  intro devices
  induction devices with
  | nil => intro acc d s hmem; exact absurd hmem (List.not_mem_nil d)
  | cons d0 rest ih =>
    intro acc d s hmem hnodup hs
    rw [List.map_cons, List.nodup_cons] at hnodup
    obtain ⟨hnotin, hnodup'⟩ := hnodup
    rcases List.mem_cons.mp hmem with heq | hmem'
    · subst heq
      rw [List.foldl_cons]
      have hrest : ∀ d' ∈ rest, d'.id ≠ d.id := by
        intro d' hd' heq'
        exact hnotin (heq' ▸ List.mem_map_of_mem (fun x => x.id) hd')
      rw [merge_fold_lookup_of_no_id status rest _ d.id hrest]
      unfold merge_step
      rw [hs]
      exact lookup_insert_self acc d.id _
    · rw [List.foldl_cons]
      exact ih _ d s hmem' hnodup' hs

theorem merge_fold_domain (status : StrMap SingleDevice) :
    ∀ (devices : List DeviceDict) (acc : StrMap MergedDevice) (k : String),
      ((devices.foldl (merge_step status) acc).lookup k).isSome →
      (acc.lookup k).isSome ∨
        ∃ d, d ∈ devices ∧ d.id = k ∧ (status.lookup k).isSome := by
  intro devices
  induction devices with
  | nil => intro acc k h; exact Or.inl h
  | cons d0 rest ih =>
    intro acc k h
    rw [List.foldl_cons] at h
    rcases ih _ k h with hacc | ⟨d, hd, hid, hst⟩
    · unfold merge_step at hacc
      cases hst0 : status.lookup d0.id with
      | none => rw [hst0] at hacc; exact Or.inl hacc
      | some s =>
        rw [hst0] at hacc
        by_cases hk : k = d0.id
        · subst hk
          exact Or.inr ⟨d0, List.mem_cons_self d0 rest, rfl, by rw [hst0]; rfl⟩
        · rw [lookup_insert_ne acc d0.id k _ hk] at hacc
          exact Or.inl hacc
    · exact Or.inr ⟨d, List.mem_cons_of_mem d0 hd, hid, hst⟩

/-- C1: for every synced device list (whose keys are unique, per the
registry invariant) and every extracted status mapping, the coordinator
merge returns exactly the devices whose key occurs in the status
mapping; each returned entry pairs the device's static fields with the
status record's dynamic fields (`{**device, **status}` — the two field
schemas are disjoint, so the union keeps all static and all dynamic
fields, dynamic ones trivially taking precedence); a device whose key is
absent from the status mapping does not appear in the result at all. -/
theorem C1_refresh_merged_view (devices : List DeviceDict)
    (status : StrMap SingleDevice)
    (hnodup : (devices.map (fun x => x.id)).Nodup) :
    (∀ d ∈ devices, ∀ s, status.lookup d.id = some s →
       (merge_status devices status).lookup d.id = some ⟨d, s⟩) ∧
    (∀ d ∈ devices, status.lookup d.id = none →
       (merge_status devices status).lookup d.id = none) ∧
    (∀ k, ((merge_status devices status).lookup k).isSome →
       ∃ d, d ∈ devices ∧ d.id = k ∧ (status.lookup k).isSome) := by
  refine ⟨?_, ?_, ?_⟩
  · intro d hd s hs
    exact merge_fold_lookup_of_hit status devices [] d s hd hnodup hs
  · intro d hd hs
    rw [merge_status, merge_fold_lookup_of_no_status status d.id hs devices []]
    rfl
  · intro k h
    rcases merge_fold_domain status devices [] k h with habs | hgood
    · simp [List.lookup] at habs
    · exact hgood

/-- Witness for C1 at a concrete input: `devSwitchLockG` (key `U1-1`,
present in `statusOne`) appears merged, and `devLockSwitchG` (key
`U1-2`, absent from `statusOne`) does not appear at all. -/
theorem C1_refresh_merged_view_witness :
    (([devSwitchLockG, devLockSwitchG].map (fun x => x.id)).Nodup ∧
      statusOne.lookup devSwitchLockG.id =
        some { state := some true, status := some 1, brightness := none
               door := none, colorTemperatureInKelvin := none, item := none }) ∧
    (merge_status [devSwitchLockG, devLockSwitchG] statusOne).lookup devSwitchLockG.id =
      some ⟨devSwitchLockG,
        { state := some true, status := some 1, brightness := none
          door := none, colorTemperatureInKelvin := none, item := none }⟩ ∧
    (merge_status [devSwitchLockG, devLockSwitchG] statusOne).lookup devLockSwitchG.id =
      none :=
  ⟨⟨by decide, by decide⟩,
    (C1_refresh_merged_view [devSwitchLockG, devLockSwitchG] statusOne (by decide)).1
      devSwitchLockG (by decide) _ (by decide),
    (C1_refresh_merged_view [devSwitchLockG, devLockSwitchG] statusOne (by decide)).2.1
      devLockSwitchG (by decide) (by decide)⟩

/-! ## Lemmas about `parse_multi` -/

theorem parse_multi_ok (data : RawDevice) (t : String) :
    ∀ (nodes : List String) (i : Nat),
      i + nodes.length ≤ data.deviceTypes.length →
      ∃ ds, parse_multi data t i nodes = .ok ds ∧
        ds.length = nodes.length ∧
        ∀ j, j < nodes.length →
          ds[j]? = some (create_device_dict data (get_device_type t (i + j)) (i + j + 1)
            nodes[j]? data.deviceTypes[i + j]?) := by
  intro nodes
  induction nodes with
  | nil =>
    intro i _
    exact ⟨[], rfl, rfl, fun j hj => absurd hj (Nat.not_lt_zero j)⟩
  | cons node rest ih =>
    intro i hlen
    have hi : i < data.deviceTypes.length := by
      simp only [List.length_cons] at hlen
      omega
    have hudt : data.deviceTypes[i]? = some data.deviceTypes[i] :=
      List.getElem?_eq_getElem hi
    have hrest : i + 1 + rest.length ≤ data.deviceTypes.length := by
      simp only [List.length_cons] at hlen
      omega
    obtain ⟨ds', hds', hlen', hchar'⟩ := ih (i + 1) hrest
    refine ⟨create_device_dict data (get_device_type t i) (i + 1)
      (some node) (some data.deviceTypes[i]) :: ds', ?_, ?_, ?_⟩
    · unfold parse_multi
      rw [hudt, hds']
    · simp [hlen']
    · intro j hj
      cases j with
      | zero =>
        simp only [List.getElem?_cons_zero, Nat.add_zero, hudt]
      | succ j' =>
        simp only [List.getElem?_cons_succ]
        have hj' : j' < rest.length := by
          simp only [List.length_cons] at hj
          omega
        have h0 := hchar' j' hj'
        have e1 : i + 1 + j' = i + (j' + 1) := by omega
        rw [e1] at h0
        exact h0

/-- C2: for every hardware unit with an enabled type name (and a
per-slot override list parallel to its slot list, as the data model
declares), `parse_device` raises nothing, logs nothing, and returns
exactly one logical device per declared relay slot — exactly one device
with `relay_no = 1` and key `uid ++ "-1"` when the slot list is empty,
and exactly N devices with `relay_no` running 1..N and pairwise-distinct
keys `uid ++ "-1"` .. `uid ++ "-N"` when N ≥ 1 slots are declared. -/
theorem C2_one_device_per_slot (data : RawDevice)
    (hen : data.typeId.name ∈ ENABLED_DEVICES)
    (hlen : data.deviceTypes.length = data.devices.length) :
    ∃ ds, parse_device data = .ok (ds, []) ∧
      ds.length = (if data.devices = [] then 1 else data.devices.length) ∧
      (∀ j, j < ds.length →
        ds[j]?.map (fun d => d.relay_no) = some (j + 1) ∧
        ds[j]?.map (fun d => d.id) = some (data.uid ++ "-" ++ Nat.repr (j + 1))) ∧
      (ds.map (fun d => d.id)).Nodup := by
  by_cases hdev : data.devices = []
  · refine ⟨[create_device_dict data
        (if data.typeId.name ∈ TYPE_ID_EVA then "Light"
         else get_device_type data.typeId.name 0) 1 none none], ?_, ?_, ?_, ?_⟩
    · simp only [parse_device, if_pos hdev, if_pos hen]
    · simp [hdev]
    · intro j hj
      simp only [List.length_cons, List.length_nil] at hj
      have hj0 : j = 0 := by omega
      subst hj0
      exact ⟨rfl, rfl⟩
    · simp
  · obtain ⟨ds, hds, hdslen, hchar⟩ :=
      parse_multi_ok data data.typeId.name data.devices 0 (by omega)
    have hchar0 : ∀ j, j < ds.length →
        ds[j]? = some (create_device_dict data (get_device_type data.typeId.name j)
          (j + 1) data.devices[j]? data.deviceTypes[j]?) := by
      intro j hj
      have h0 := hchar j (hdslen ▸ hj)
      try simp only [Nat.zero_add] at h0
      exact h0
    refine ⟨ds, ?_, ?_, ?_, ?_⟩
    · simp only [parse_device, if_neg hdev, if_pos hen, hds]
    · rw [if_neg hdev, hdslen]
    · intro j hj
      rw [hchar0 j hj]
      exact ⟨rfl, rfl⟩
    · rw [List.nodup_iff_getElem?_ne_getElem?]
      intro i j hij hj
      rw [List.length_map] at hj
      rw [List.getElem?_map, List.getElem?_map, hchar0 i (lt_trans hij hj), hchar0 j hj]
      intro hcontra
      simp only [Option.map_some'] at hcontra
      have hkeys : data.uid ++ "-" ++ Nat.repr (i + 1) =
          data.uid ++ "-" ++ Nat.repr (j + 1) := by
        have h1 := Option.some.inj hcontra
        simpa [create_device_dict] using h1
      have := key_inj (data.uid ++ "-") hkeys
      omega

/-- Witness for C2 at scenario A: `WIFI_4SWITCH` with four slots. -/
theorem C2_one_device_per_slot_witness :
    ("WIFI_4SWITCH" ∈ ENABLED_DEVICES ∧
      unitA.deviceTypes.length = unitA.devices.length) ∧
    (∃ ds, parse_device unitA = .ok (ds, []) ∧
      ds.length = (if unitA.devices = [] then 1 else unitA.devices.length) ∧
      (∀ j, j < ds.length →
        ds[j]?.map (fun d => d.relay_no) = some (j + 1) ∧
        ds[j]?.map (fun d => d.id) = some (unitA.uid ++ "-" ++ Nat.repr (j + 1))) ∧
      (ds.map (fun d => d.id)).Nodup) :=
  ⟨⟨by decide, by decide⟩,
    C2_one_device_per_slot unitA (by decide) (by decide)⟩

/-- C3 counterexample: the claim states that the capability
classification, as a function of (type name, slot index), yields Light
for every slot index whenever the type is in the eva-bulb special set.
On the code, the eva-bulb special case lives only on the single-node
path of `parse_device`; the per-slot rule `_get_device_type` has no
eva-bulb case, so type `EVA_BULB` (which is in `TYPE_ID_EVA` but not in
the internal light-type-name set) classifies as Switch at every slot of
a multi-slot unit. -/
theorem C3_counterexample :
    "EVA_BULB" ∈ TYPE_ID_EVA ∧
    get_device_type "EVA_BULB" 1 = "Switch" ∧
    (parse_device unitE).toOption.map (fun p => p.1.map (fun d => d.device_type)) =
      some ["Switch", "Switch"] ∧
    ("Switch" : String) ≠ "Light" :=
  ⟨by decide, by decide, by decide, by decide⟩

/-- C3 amended: the per-slot classification rule is a pure function of
(type name, slot index) applying its cases in this exact order:
(1) the fan-combo rule (type in the fan-combo set and slot index 0)
yields Fan; (2) else type name in the fixed light-type-name set yields
Light; (3) else type in the fixed lock-type set yields Lock; (4) else
Switch.  The eva-bulb special case is applied only on the single-node
parse path (before the per-slot rule at index 0), not for every slot
index; the fan-combo rule takes precedence over the light/lock/switch
rules, and determinism holds since the rule is a function. -/
theorem C3_classification_order_amended (t : String) (i : Nat) :
    (t ∈ TYPE_ID_FAN → i = 0 → get_device_type t i = "Fan") ∧
    (¬(t ∈ TYPE_ID_FAN ∧ i = 0) → t ∈ light_types →
       get_device_type t i = "Light") ∧
    (¬(t ∈ TYPE_ID_FAN ∧ i = 0) → t ∉ light_types → t ∈ TYPE_ID_LOCK →
       get_device_type t i = "Lock") ∧
    (¬(t ∈ TYPE_ID_FAN ∧ i = 0) → t ∉ light_types → t ∉ TYPE_ID_LOCK →
       get_device_type t i = "Switch") ∧
    (∀ data : RawDevice, data.typeId.name = t → data.devices = [] →
       t ∈ ENABLED_DEVICES →
       parse_device data = .ok ([create_device_dict data
         (if t ∈ TYPE_ID_EVA then "Light" else get_device_type t 0) 1 none none],
         [])) := by
  refine ⟨?_, ?_, ?_, ?_, ?_⟩
  · intro hf hi
    rw [get_device_type, if_pos ⟨hf, hi⟩]
  · intro hn hl
    rw [get_device_type, if_neg hn, if_pos hl]
  · intro hn hnl hlk
    rw [get_device_type, if_neg hn, if_neg hnl, if_pos hlk]
  · intro hn hnl hnlk
    rw [get_device_type, if_neg hn, if_neg hnl, if_neg hnlk]
  · intro data ht hdev hen
    subst ht
    simp only [parse_device, if_pos hdev, if_pos hen]

/-- Witness for C3 amended: the fan rule at slot 0 of a combo type, and
the light rule for `EVA_BULB_WW` at a nonzero slot. -/
theorem C3_classification_order_amended_witness :
    get_device_type "WIFI_3SWITCH_1FAN" 0 = "Fan" ∧
    get_device_type "EVA_BULB_WW" 3 = "Light" :=
  ⟨(C3_classification_order_amended "WIFI_3SWITCH_1FAN" 0).1 (by decide) rfl,
   (C3_classification_order_amended "EVA_BULB_WW" 3).2.1 (by decide) (by decide)⟩

/-- C4 counterexample: the claim states that a non-zero slot's
capability class equals the per-slot user-override capability when one
is provided.  On scenario B (`unitB`, override list
`["Switch", "Switch", "Fan"]`), slot 2's override is `"Fan"`, yet the
parsed device `U2-3` has `device_type = "Switch"` (the override is
recorded only in the separate `user_device_type` field). -/
theorem C4_counterexample :
    unitB.deviceTypes[2]? = some "Fan" ∧
    (parse_device unitB).toOption.map (fun p => p.1.map (fun d => d.device_type)) =
      some ["Fan", "Switch", "Switch"] ∧
    (parse_device unitB).toOption.map (fun p => p.1.map (fun d => d.user_device_type)) =
      some ["Switch", "Switch", "Fan"] ∧
    ("Switch" : String) ≠ "Fan" :=
  ⟨by decide, by decide, by decide, by decide⟩

/-- C4 amended: for every multi-slot enabled hardware unit (override
list parallel to the slot list), every slot's `device_type` — slot 0
included — is determined by the generic classification rule
`_get_device_type` regardless of the per-slot override list (so slot 0
of a fan-combo type is Fan); the per-slot user override, when provided,
is recorded only in the separate `user_device_type` field (defaulting to
the derived class on an empty override). -/
theorem C4_slot_classes_amended (data : RawDevice)
    (hen : data.typeId.name ∈ ENABLED_DEVICES)
    (hne : data.devices ≠ [])
    (hlen : data.deviceTypes.length = data.devices.length) :
    ∃ ds, parse_device data = .ok (ds, []) ∧
      ds.length = data.devices.length ∧
      (∀ j, j < ds.length →
        ds[j]?.map (fun d => d.device_type) =
          some (get_device_type data.typeId.name j) ∧
        ds[j]?.map (fun d => d.user_device_type) =
          some (overrideOr data.deviceTypes[j]?
            (get_device_type data.typeId.name j))) ∧
      (data.typeId.name ∈ TYPE_ID_FAN →
        ds[0]?.map (fun d => d.device_type) = some "Fan") := by
  obtain ⟨ds, hds, hdslen, hchar⟩ :=
    parse_multi_ok data data.typeId.name data.devices 0 (by omega)
  have hchar0 : ∀ j, j < ds.length →
      ds[j]? = some (create_device_dict data (get_device_type data.typeId.name j)
        (j + 1) data.devices[j]? data.deviceTypes[j]?) := by
    intro j hj
    have h0 := hchar j (hdslen ▸ hj)
    try simp only [Nat.zero_add] at h0
    exact h0
  refine ⟨ds, ?_, hdslen, ?_, ?_⟩
  · simp only [parse_device, if_neg hne, if_pos hen, hds]
  · intro j hj
    rw [hchar0 j hj]
    exact ⟨rfl, rfl⟩
  · intro hf
    have h0 : 0 < ds.length := by
      rw [hdslen]
      exact List.length_pos.mpr hne
    rw [hchar0 0 h0]
    have : get_device_type data.typeId.name 0 = "Fan" := by
      rw [get_device_type, if_pos ⟨hf, rfl⟩]
    rw [this]
    rfl

/-- Witness for C4 amended at scenario B (`unitB`). -/
theorem C4_slot_classes_amended_witness :
    ("WIFI_3SWITCH_1FAN" ∈ ENABLED_DEVICES ∧ unitB.devices ≠ [] ∧
      unitB.deviceTypes.length = unitB.devices.length) ∧
    (∃ ds, parse_device unitB = .ok (ds, []) ∧
      ds.length = unitB.devices.length ∧
      (∀ j, j < ds.length →
        ds[j]?.map (fun d => d.device_type) =
          some (get_device_type unitB.typeId.name j) ∧
        ds[j]?.map (fun d => d.user_device_type) =
          some (overrideOr unitB.deviceTypes[j]?
            (get_device_type unitB.typeId.name j))) ∧
      (unitB.typeId.name ∈ TYPE_ID_FAN →
        ds[0]?.map (fun d => d.device_type) = some "Fan")) :=
  ⟨⟨by decide, by decide, by decide⟩,
    C4_slot_classes_amended unitB (by decide) (by decide) (by decide)⟩

/-! ## Lemmas relating `get_all_status` to the spec-side extraction -/

theorem status_step_eq_spec (r : StatusRecord) (acc : StrMap SingleDevice) :
    status_step acc r =
      (record_entries_spec r).foldl (fun a p => a.insert p.1 p.2) acc := by
  unfold status_step record_entries_spec
  cases r.state with
  | none => rfl
  | some payload =>
    cases payload with
    | single s => rfl
    | multi items =>
      rw [List.foldl_map]

theorem fold_status_eq_spec (feed : List StatusRecord) :
    ∀ acc, feed.foldl status_step acc =
      ((feed.map record_entries_spec).flatten).foldl
        (fun a p => a.insert p.1 p.2) acc := by
  induction feed with
  | nil => intro acc; rfl
  | cons r rest ih =>
    intro acc
    rw [List.foldl_cons, ih, List.map_cons, List.flatten_cons, List.foldl_append,
      status_step_eq_spec]

/-- C5 counterexample: the claim states that each output entry of the
extraction contains exactly the dynamic fields present in the raw state
(state, status, brightness, door, colorTemperatureInKelvin).  On a feed
whose list item carries no relay number, the code keys the entry
`U9-1` (default relay 1) but additionally stores the raw item under the
extra `item` key, so the entry does not consist of dynamic fields
only. -/
theorem C5_counterexample :
    (get_all_status feedNoNumber).lookup "U9-1" =
      some { state := some true, status := none, brightness := none, door := none
             colorTemperatureInKelvin := none
             item := some { number := none
                            state := some { state := some "ON", status := none
                                            brightness := none, door := none
                                            colorTemperatureInKelvin := none } } } ∧
    ((get_all_status feedNoNumber).lookup "U9-1").map (fun sd => sd.item.isSome) =
      some true :=
  ⟨by decide, by decide⟩

/-- C5 amended: for every raw status feed, the extraction maps each
record carrying a state payload to output entries keyed
`{unit_id}-{relay_number}` (relay number defaulting to 1 when absent);
each entry contains exactly the dynamic fields present in the raw state
with absent fields omitted, *except* that a list item lacking an
explicit relay number additionally retains the raw item under the
`item` key; the on/off string normalizes with `"ON" = true` and any
other string to `false`; scenario C yields exactly
`{"U1-2": {state: true, status: 1, brightness: 66}}` with no entry for
any other key.  The per-feed behaviour is stated as equality with
`extract_all_spec`, written from the (amended) spec wording. -/
theorem C5_extract_amended (feed : List StatusRecord) :
    get_all_status feed = extract_all_spec feed ∧
    (∀ s : String, state_to_val s = true ↔ s = "ON") ∧
    (get_all_status feedC).lookup "U1-2" =
      some { state := some true, status := some 1, brightness := some 66
             door := none, colorTemperatureInKelvin := none, item := none } ∧
    (∀ k : String, k ≠ "U1-2" → (get_all_status feedC).lookup k = none) := by
  refine ⟨?_, ?_, by decide, ?_⟩
  · unfold get_all_status extract_all_spec
    exact fold_status_eq_spec feed []
  · intro s
    simp only [state_to_val, beq_iff_eq]
  · intro k hk
    have hfc : get_all_status feedC =
        [("U1-2", { state := some true, status := some 1, brightness := some 66
                    door := none, colorTemperatureInKelvin := none, item := none })] := by
      decide
    rw [hfc]
    have hbeq : (k == "U1-2") = false := beq_eq_false_iff_ne.mpr hk
    simp [List.lookup, hbeq]

/-- Witness for C5 amended: no entry for `U1-1` in the scenario-C
extraction. -/
theorem C5_extract_amended_witness :
    (("U1-1" : String) ≠ "U1-2") ∧
    (get_all_status feedC).lookup "U1-1" = none :=
  ⟨by decide, (C5_extract_amended feedC).2.2.2 "U1-1" (by decide)⟩

/-- C6: device synchronization is all-or-nothing.  A transport failure
is wrapped by `tinxy_request` into a `TinxyException` that propagates to
the caller, and any raised error leaves the previously stored device
list completely unchanged; on success the previous list is fully
replaced by the freshly parsed one, independently of what was stored
before. -/
theorem C6_sync_all_or_nothing (old old' : List DeviceDict)
    (transport_err : String) (items : List RawDevice) :
    (∀ method, sync_devices (tinxy_request method (.error transport_err)) old =
      (some (.tinxy ("API [" ++ method ++ "] call failed: " ++ transport_err)),
        old)) ∧
    (∀ e : PyExc, sync_devices (.error e) old = (some e, old)) ∧
    (∀ ds, parse_all items = .ok ds →
      sync_devices (.ok items) old = (none, ds) ∧
      sync_devices (.ok items) old' = (none, ds)) := by
  refine ⟨fun method => rfl, fun e => rfl, fun ds h => ?_⟩
  simp [sync_devices, h]

/-- Witness for C6: a failed fetch leaves the stored list unchanged; a
successful fetch of a hub-only inventory fully replaces it (the stale
device disappears). -/
theorem C6_sync_all_or_nothing_witness :
    parse_all [unitHub] = .ok [] ∧
    sync_devices (.ok [unitHub]) [devSwitchLockG] = (none, []) ∧
    sync_devices (.error (.tinxy "boom")) [devSwitchLockG] =
      (some (.tinxy "boom"), [devSwitchLockG]) :=
  ⟨rfl,
   ((C6_sync_all_or_nothing [devSwitchLockG] [] "x" [unitHub]).2.2 []
      rfl).1,
   (C6_sync_all_or_nothing [devSwitchLockG] [] "x" [unitHub]).2.1
      (.tinxy "boom")⟩

/-- C7 counterexample: the claim states that a credentials rejection
during the status fetch is surfaced as AuthenticationFailure (never as
CommunicationFailure) and that a timeout is surfaced as
CommunicationFailure.  On the code, `tinxy_request` wraps *every*
request failure — a 401 credentials rejection included — in a plain
`TinxyException`, which the coordinator maps to the UpdateFailed
communication branch, not to `ConfigEntryAuthFailed`; and the
`TimeoutError` raised by the expired time budget is not a
`TinxyException`, so it lands in the generic `except Exception` branch
(the "Unexpected error" form of UpdateFailed), not the communication
branch. -/
theorem C7_counterexample :
    async_update_data [] (tinxy_request "GET" (.error "401 Unauthorized")) =
      .updateFailedComm
        ("Error communicating with API: API [GET] call failed: 401 Unauthorized") ∧
    async_update_data [] (tinxy_request "GET" (.error "401 Unauthorized")) ≠
      .configEntryAuthFailed ∧
    (async_update_data [] (.error .timeout)).isComm = false ∧
    async_update_data [] (.error .timeout) =
      .updateFailedUnexpected ("Unexpected error: TimeoutError") :=
  ⟨by decide, by decide, by decide, by decide⟩

/-- C7 amended: the coordinator surfaces exactly three failure kinds,
keyed on the type of the raised exception: `ConfigEntryAuthFailed`
(AuthenticationFailure) only for a raised
`TinxyAuthenticationException`; the communication form of `UpdateFailed`
for any other `TinxyException` — which includes every request-level
failure, credentials rejections included, since the transport wrapper
re-raises them all as plain `TinxyException` — and the unexpected form
of `UpdateFailed` for anything else, including expiry of the bounded
time budget. -/
theorem C7_failure_taxonomy_amended (devices : List DeviceDict)
    (status : StrMap SingleDevice) :
    (async_update_data devices (.ok status) =
       .ok (merge_status devices status)) ∧
    (∀ m, async_update_data devices (.error (.tinxyAuth m)) =
       .configEntryAuthFailed) ∧
    (∀ m, async_update_data devices (.error (.tinxy m)) =
       .updateFailedComm ("Error communicating with API: " ++ m)) ∧
    (async_update_data devices (.error .timeout) =
       .updateFailedUnexpected ("Unexpected error: TimeoutError")) ∧
    (∀ m, async_update_data devices (.error (.other m)) =
       .updateFailedUnexpected ("Unexpected error: " ++ m)) ∧
    (∀ method transport_err,
       async_update_data devices (tinxy_request method (.error transport_err)) =
         .updateFailedComm ("Error communicating with API: API [" ++ method ++
           "] call failed: " ++ transport_err)) :=
  ⟨rfl, fun _ => rfl, fun _ => rfl, rfl, fun _ => rfl, fun _ _ => rfl⟩

/-- C8: a hardware unit of an explicitly disabled type parses to the
empty list with no warning logged; a unit of an unrecognized type
(neither enabled nor disabled) parses to the empty list with exactly
one warning logged, and neither case raises an exception. -/
theorem C8_disabled_unknown (data : RawDevice) :
    (data.typeId.name ∈ DISABLED_DEVICES → parse_device data = .ok ([], [])) ∧
    (data.typeId.name ∉ ENABLED_DEVICES → data.typeId.name ∉ DISABLED_DEVICES →
      ∃ w, parse_device data = .ok ([], [w])) := by
  constructor
  · intro hdis
    have hname : data.typeId.name = "EVA_HUB" := by
      simpa [DISABLED_DEVICES] using hdis
    have hnen : data.typeId.name ∉ ENABLED_DEVICES := by
      rw [hname]
      decide
    by_cases hdev : data.devices = []
    · simp only [parse_device, if_pos hdev, if_neg hnen, if_pos hdis]
    · simp only [parse_device, if_neg hdev, if_neg hnen, if_pos hdis]
  · intro hnen hndis
    by_cases hdev : data.devices = []
    · exact ⟨"Unknown device " ++ data.typeId.name ++ ", please create GitHub issue.",
        by simp only [parse_device, if_pos hdev, if_neg hnen, if_neg hndis]⟩
    · exact ⟨"Unknown multi-node device: " ++ data.typeId.name,
        by simp only [parse_device, if_neg hdev, if_neg hnen, if_neg hndis]⟩

/-- Witness for C8: the disabled `EVA_HUB` unit and an unrecognized
`WIFI_TOASTER` unit. -/
theorem C8_disabled_unknown_witness :
    ("EVA_HUB" ∈ DISABLED_DEVICES ∧ parse_device unitHub = .ok ([], [])) ∧
    ("WIFI_TOASTER" ∉ ENABLED_DEVICES ∧ "WIFI_TOASTER" ∉ DISABLED_DEVICES ∧
      ∃ w, parse_device unitMystery = .ok ([], [w])) :=
  ⟨⟨by decide, (C8_disabled_unknown unitHub).1 (by decide)⟩,
   ⟨by decide, by decide,
     (C8_disabled_unknown unitMystery).2 (by decide) (by decide)⟩⟩

/-- C9: constructing the client configuration with a falsy (empty) API
token raises the token error, and with a non-empty token but a missing
(`None`) or empty base URL raises the URL error; both are raised
synchronously by the pure constructor, before any network call exists,
and the two errors are distinct (different exception type and different
message). -/
theorem C9_config_fail_fast (token : String) (url : Option String) :
    (mkTinxyHostConfiguration "" url =
       .error (.tinxyAuth "No API token was provided.")) ∧
    (token ≠ "" → optStrTruthy url = false →
       mkTinxyHostConfiguration token url =
         .error (.tinxy "No API URL was provided.")) ∧
    (token ≠ "" → optStrTruthy url = true →
       mkTinxyHostConfiguration token url = .ok ⟨token, url⟩) ∧
    (PyExc.tinxyAuth "No API token was provided." ≠
       PyExc.tinxy "No API URL was provided.") := by
  refine ⟨rfl, ?_, ?_, by decide⟩
  · intro ht hu
    simp [mkTinxyHostConfiguration, ht, hu]
  · intro ht hu
    simp [mkTinxyHostConfiguration, ht, hu]

/-- Witness for C9: empty token; and missing URL with a non-empty
token. -/
theorem C9_config_fail_fast_witness :
    mkTinxyHostConfiguration "" (some "https://ha-backend.tinxy.in/") =
      .error (.tinxyAuth "No API token was provided.") ∧
    (("token" : String) ≠ "" ∧ optStrTruthy none = false) ∧
    mkTinxyHostConfiguration "token" none =
      .error (.tinxy "No API URL was provided.") :=
  ⟨(C9_config_fail_fast "" (some "https://ha-backend.tinxy.in/")).1,
   ⟨by decide, by decide⟩,
   (C9_config_fail_fast "token" none).2.1 (by decide) (by decide)⟩

/-- C10: the four capability-filtered views are not computed uniformly:
`list_switches` / `list_lights` / `list_fans` filter on the derived
`device_type`, but `list_locks` filters on the vendor `gtype` field
lying in `GTYPE_LOCK`.  Consequently a device with `device_type` Switch
and a lock `gtype` appears in both `list_switches` and `list_locks`,
and a device with `device_type` Lock whose `gtype` is not in the lock
set appears in none of the four views. -/
theorem C10_capability_views (devices : List DeviceDict) (d : DeviceDict) :
    (∀ x, x ∈ list_switches devices ↔ x ∈ devices ∧ x.device_type = "Switch") ∧
    (∀ x, x ∈ list_lights devices ↔ x ∈ devices ∧ x.device_type = "Light") ∧
    (∀ x, x ∈ list_fans devices ↔ x ∈ devices ∧ x.device_type = "Fan") ∧
    (∀ x, x ∈ list_locks devices ↔ x ∈ devices ∧ x.gtype ∈ GTYPE_LOCK) ∧
    (d ∈ devices → d.device_type = "Switch" → d.gtype ∈ GTYPE_LOCK →
       d ∈ list_switches devices ∧ d ∈ list_locks devices) ∧
    (d ∈ devices → d.device_type = "Lock" → d.gtype ∉ GTYPE_LOCK →
       d ∉ list_switches devices ∧ d ∉ list_lights devices ∧
       d ∉ list_fans devices ∧ d ∉ list_locks devices) := by
  have hsw : ∀ x, x ∈ list_switches devices ↔ x ∈ devices ∧ x.device_type = "Switch" := by
    intro x
    simp [list_switches, List.mem_filter]
  have hli : ∀ x, x ∈ list_lights devices ↔ x ∈ devices ∧ x.device_type = "Light" := by
    intro x
    simp [list_lights, List.mem_filter]
  have hfa : ∀ x, x ∈ list_fans devices ↔ x ∈ devices ∧ x.device_type = "Fan" := by
    intro x
    simp [list_fans, List.mem_filter]
  have hlo : ∀ x, x ∈ list_locks devices ↔ x ∈ devices ∧ x.gtype ∈ GTYPE_LOCK := by
    intro x
    simp [list_locks, List.mem_filter]
  refine ⟨hsw, hli, hfa, hlo, ?_, ?_⟩
  · intro hmem hdt hg
    exact ⟨(hsw d).mpr ⟨hmem, hdt⟩, (hlo d).mpr ⟨hmem, hg⟩⟩
  · intro hmem hdt hg
    refine ⟨?_, ?_, ?_, ?_⟩
    · intro hc
      have := ((hsw d).mp hc).2
      rw [hdt] at this
      exact absurd this (by decide)
    · intro hc
      have := ((hli d).mp hc).2
      rw [hdt] at this
      exact absurd this (by decide)
    · intro hc
      have := ((hfa d).mp hc).2
      rw [hdt] at this
      exact absurd this (by decide)
    · intro hc
      exact hg ((hlo d).mp hc).2

/-- Witness for C10: `devSwitchLockG` (Switch class, lock gtype) is in
both the switch and the lock views; `devLockSwitchG` (Lock class,
switch gtype) is in none of the four. -/
theorem C10_capability_views_witness :
    (devSwitchLockG ∈ [devSwitchLockG, devLockSwitchG] ∧
      devSwitchLockG.device_type = "Switch" ∧
      devSwitchLockG.gtype ∈ GTYPE_LOCK) ∧
    (devSwitchLockG ∈ list_switches [devSwitchLockG, devLockSwitchG] ∧
      devSwitchLockG ∈ list_locks [devSwitchLockG, devLockSwitchG]) ∧
    (devLockSwitchG ∉ list_switches [devSwitchLockG, devLockSwitchG] ∧
      devLockSwitchG ∉ list_lights [devSwitchLockG, devLockSwitchG] ∧
      devLockSwitchG ∉ list_fans [devSwitchLockG, devLockSwitchG] ∧
      devLockSwitchG ∉ list_locks [devSwitchLockG, devLockSwitchG]) :=
  ⟨⟨by decide, by decide, by decide⟩,
   (C10_capability_views [devSwitchLockG, devLockSwitchG] devSwitchLockG).2.2.2.2.1
     (by decide) (by decide) (by decide),
   (C10_capability_views [devSwitchLockG, devLockSwitchG] devLockSwitchG).2.2.2.2.2
     (by decide) (by decide) (by decide)⟩

end Tinxy
